import Mathlib

/-!
Verification of the record dispatcher (the Lambda `handler` in
`src/lib/serverless-app-stack.ts`, blogdb variant) against its
natural-language specification.

The handler is JavaScript; we shallowly embed it. JavaScript values that can
flow through the handler (parsed JSON, DynamoDB items, response bodies) are
modelled by the inductive type `Js`. The two external collaborators —
`JSON.parse` and the DynamoDB document client — are modelled as parameters:
the parse function is an arbitrary `String → Except String Js`, and a
possible store failure is an arbitrary `Option String` (when `some msg`, the
single `dynamo.send` call of the invocation throws an error with message
`msg`; when `none`, the call succeeds against a list-of-records store model).
`JSON.stringify` and string interpolation are modelled after their JavaScript
semantics (`stringify undefined = undefined`, object fields with undefined
values are omitted, and so on).
-/

/-- A double-quote character, as a string. -/
def dq : String := String.singleton (Char.ofNat 34)

/-- A backslash character, as a string. -/
def bs : String := String.singleton (Char.ofNat 92)

/-- JavaScript values as they can appear in the handler's data flow:
`undefined`, `null`, booleans, numbers (integral only; the claims never
involve fractional numbers), strings, arrays and plain objects. -/
inductive Js where
  | undefined : Js
  | null : Js
  | bool (b : Bool) : Js
  | num (n : Int) : Js
  | str (s : String) : Js
  | arr (elems : List Js) : Js
  | obj (fields : List (String × Js)) : Js

/-- JSON escaping of one character (quote, backslash and the common control
characters; other characters pass through). -/
def escapeJsonChar (c : Char) : String :=
  if c = Char.ofNat 34 then bs ++ dq
  else if c = Char.ofNat 92 then bs ++ bs
  else if c = Char.ofNat 10 then bs ++ "n"
  else if c = Char.ofNat 9 then bs ++ "t"
  else if c = Char.ofNat 13 then bs ++ "r"
  else String.singleton c

/-- JSON encoding of a string: surrounding double quotes plus escaping. -/
def jsonQuote (s : String) : String :=
  dq ++ String.join (s.toList.map escapeJsonChar) ++ dq

mutual

/-- `JSON.stringify` on a `Js` value, returning `none` exactly where
JavaScript returns the value `undefined` instead of a string (top-level
`undefined`). -/
def jsonValue : Js → Option String
  | .undefined => none
  | .null => some "null"
  | .bool b => some (cond b "true" "false")
  | .num n => some (toString n)
  | .str s => some (jsonQuote s)
  | .arr xs => some ("[" ++ jsonArrayItems xs ++ "]")
  | .obj fs => some ("\x7b" ++ String.intercalate "," (jsonObjFields fs) ++ "\x7d")

/-- Array elements under `JSON.stringify`: an element that would serialize to
`undefined` becomes `null`, elements are comma separated. -/
def jsonArrayItems : List Js → String
  | [] => ""
  | [x] => (jsonValue x).getD "null"
  | x :: y :: xs => (jsonValue x).getD "null" ++ "," ++ jsonArrayItems (y :: xs)

/-- Object fields under `JSON.stringify`: a field whose value serializes to
`undefined` is omitted. -/
def jsonObjFields : List (String × Js) → List String
  | [] => []
  | (k, v) :: fs =>
    match jsonValue v with
    | none => jsonObjFields fs
    | some s => (jsonQuote k ++ ":" ++ s) :: jsonObjFields fs

end

/-- `JSON.stringify` as the handler uses it: `undefined` stays `undefined`
(it is not a string), every other value becomes the string of its JSON
encoding. -/
def jsonStringify (v : Js) : Js :=
  match jsonValue v with
  | none => Js.undefined
  | some s => Js.str s

mutual

/-- JavaScript string conversion (template-literal interpolation) of a
value. -/
def Js.toDisplay : Js → String
  | .undefined => "undefined"
  | .null => "null"
  | .bool b => cond b "true" "false"
  | .num n => toString n
  | .str s => s
  | .arr xs => displayList xs
  | .obj _ => "[object Object]"

/-- JavaScript `Array.prototype.toString`: elements joined by commas. -/
def displayList : List Js → String
  | [] => ""
  | [x] => displayItem x
  | x :: y :: xs => displayItem x ++ "," ++ displayList (y :: xs)

/-- One array element under `Array.prototype.toString`: `undefined` and
`null` display as the empty string. -/
def displayItem : Js → String
  | .undefined => ""
  | .null => ""
  | .bool b => cond b "true" "false"
  | .num n => toString n
  | .str s => s
  | .arr xs => displayList xs
  | .obj _ => "[object Object]"

end

/-- JavaScript property access `v.f` as the handler performs it on the parsed
request body: access on `null` or `undefined` throws a `TypeError` (modelled
as `Except.error` carrying the error's message); on an object it yields the
field's value or `undefined`; on any other value it yields `undefined`. -/
def Js.getField : Js → String → Except String Js
  | .null, f => .error ("Cannot read properties of null (reading " ++ f ++ ")")
  | .undefined, f => .error ("Cannot read properties of undefined (reading " ++ f ++ ")")
  | .obj fields, f => .ok ((fields.lookup f).getD .undefined)
  | _, _ => .ok .undefined

/-- The inbound request descriptor, with the fields the handler reads:
`event.httpMethod`, `event.resource`, `event.pathParameters.id` and
`event.body`. -/
structure Event where
  httpMethod : String
  resource : String
  pathParametersId : String
  body : String

/-- The item shape the handler writes with `PutCommand`: exactly the three
attributes `id`, `postTitle`, `postDescription` (each a JavaScript value
taken from the parsed request body). -/
structure Record where
  id : Js
  postTitle : Js
  postDescription : Js

/-- The store state: the rows of the single `blogdb` table. -/
abbrev Store := List Record

/-- Key equality as DynamoDB applies it to the string partition key `id`:
two items collide only when both keys are the same string. -/
def Js.keyEq : Js → Js → Bool
  | .str a, .str b => a == b
  | _, _ => false

/-- `ScanCommand`: all rows of the table. -/
def scanAll (s : Store) : List Record := s

/-- `GetCommand` keyed on `id`: the row whose `id` is the given string, if
any. -/
def getByKey (s : Store) (k : String) : Option Record :=
  s.find? (fun r => r.id.keyEq (Js.str k))

/-- `PutCommand`: full replacement of any row with the same `id`. -/
def putRecord (s : Store) (r : Record) : Store :=
  r :: s.filter (fun x => !(x.id.keyEq r.id))

/-- `DeleteCommand` keyed on `id`: removes the row with that `id` if present,
and is a no-op otherwise. -/
def deleteByKey (s : Store) (k : String) : Store :=
  s.filter (fun r => !(r.id.keyEq (Js.str k)))

/-- The store operation a `dynamo.send` call performs, as observed at the
call site (used to state which operations an invocation performs). -/
inductive StoreOp where
  | scan : StoreOp
  | get (key : String) : StoreOp
  | put (item : Record) : StoreOp
  | delete (key : String) : StoreOp

/-- A `dynamo.send` of a `DeleteCommand`: fails with the given message when
the store is failing, otherwise deletes by key. -/
def sendDelete (storeFail : Option String) (s : Store) (k : String) :
    Except String Store :=
  match storeFail with
  | some msg => .error msg
  | none => .ok (deleteByKey s k)

/-- A `dynamo.send` of a `GetCommand`. -/
def sendGet (storeFail : Option String) (s : Store) (k : String) :
    Except String (Option Record) :=
  match storeFail with
  | some msg => .error msg
  | none => .ok (getByKey s k)

/-- A `dynamo.send` of a `ScanCommand`. -/
def sendScan (storeFail : Option String) (s : Store) :
    Except String (List Record) :=
  match storeFail with
  | some msg => .error msg
  | none => .ok (scanAll s)

/-- A `dynamo.send` of a `PutCommand`. -/
def sendPut (storeFail : Option String) (s : Store) (r : Record) :
    Except String Store :=
  match storeFail with
  | some msg => .error msg
  | none => .ok (putRecord s r)

/-- The unmarshalled DynamoDB item as JavaScript sees it (`body.Item`,
`body.Items` elements): an object with the three stored attributes. -/
def Record.toJs (r : Record) : Js :=
  Js.obj [("id", r.id), ("postTitle", r.postTitle), ("postDescription", r.postDescription)]

/-- The routing key the handler switches on:
`event.httpMethod + ' ' + event.resource`. -/
def routingKey (event : Event) : String :=
  event.httpMethod ++ " " ++ event.resource

/-- The outcome of the handler's `try` block: the value assigned to `body`
(or the thrown error's message), the store state afterwards, and the store
operations the block sent. -/
structure TryOut where
  result : Except String Js
  store : Store
  ops : List StoreOp

/-- The body of the handler's `try \x7b switch … \x7d` block, translated
case by case from the source. `parseFn` is `JSON.parse`; `storeFail` is the
behaviour of the single `dynamo.send` call (`some msg` = it throws `msg`). -/
def runSwitch (parseFn : String → Except String Js) (storeFail : Option String)
    (store : Store) (event : Event) : TryOut :=
  let key := routingKey event
  if key = "DELETE /posts/{id}" then
    match sendDelete storeFail store event.pathParametersId with
    | .error e => ⟨.error e, store, [.delete event.pathParametersId]⟩
    | .ok store2 =>
      ⟨.ok (.str ("Deleted item " ++ event.pathParametersId)), store2,
        [.delete event.pathParametersId]⟩
  else if key = "GET /posts/{id}" then
    match sendGet storeFail store event.pathParametersId with
    | .error e => ⟨.error e, store, [.get event.pathParametersId]⟩
    | .ok item =>
      ⟨.ok (match item with | some r => r.toJs | none => .undefined), store,
        [.get event.pathParametersId]⟩
  else if key = "GET /posts" then
    match sendScan storeFail store with
    | .error e => ⟨.error e, store, [.scan]⟩
    | .ok items => ⟨.ok (.arr (items.map Record.toJs)), store, [.scan]⟩
  else if key = "PUT /posts" then
    match parseFn event.body with
    | .error e => ⟨.error e, store, []⟩
    | .ok requestJSON =>
      match requestJSON.getField "id" with
      | .error e => ⟨.error e, store, []⟩
      | .ok idv =>
        match requestJSON.getField "postTitle" with
        | .error e => ⟨.error e, store, []⟩
        | .ok titlev =>
          match requestJSON.getField "postDescription" with
          | .error e => ⟨.error e, store, []⟩
          | .ok descv =>
            let item : Record := ⟨idv, titlev, descv⟩
            match sendPut storeFail store item with
            | .error e => ⟨.error e, store, [.put item]⟩
            | .ok store2 =>
              ⟨.ok (.str ("Put post " ++ idv.toDisplay)), store2, [.put item]⟩
  else
    ⟨.error ("Unsupported route: " ++ dq ++ key ++ dq), store, []⟩

/-- The response descriptor the handler returns. `body` is a `Js` value
because in JavaScript it can be `undefined` (not a string). -/
structure Response where
  statusCode : Nat
  body : Js
  headers : List (String × Js)

/-- The fixed header map the handler builds once and attaches to every
response. -/
def responseHeaders : List (String × Js) :=
  [("Content-Type", Js.str "application/json"),
   ("Access-Control-Allow-Origin", Js.str "http://localhost:3000"),
   ("Access-Control-Allow-Credentials", Js.bool true)]

/-- The full handler: runs the `try` block, applies the `catch`
(`statusCode = 400`, `body = err.message`) and the `finally`
(`body = JSON.stringify(body)`), and returns `\x7b statusCode, body,
headers \x7d` together with the resulting store state and the store
operations performed. -/
def handler (parseFn : String → Except String Js) (storeFail : Option String)
    (store : Store) (event : Event) : Response × Store × List StoreOp :=
  let t := runSwitch parseFn storeFail store event
  let statusCode : Nat := match t.result with | .ok _ => 200 | .error _ => 400
  let body0 : Js := match t.result with | .ok b => b | .error msg => .str msg
  ({ statusCode := statusCode, body := jsonStringify body0,
     headers := responseHeaders }, t.store, t.ops)

/-- The response component of an invocation. -/
def handlerResponse (parseFn : String → Except String Js)
    (storeFail : Option String) (store : Store) (event : Event) : Response :=
  (handler parseFn storeFail store event).1

/-- The store state after an invocation. -/
def handlerStore (parseFn : String → Except String Js)
    (storeFail : Option String) (store : Store) (event : Event) : Store :=
  (handler parseFn storeFail store event).2.1

/-- The store operations an invocation performs. -/
def handlerOps (parseFn : String → Except String Js)
    (storeFail : Option String) (store : Store) (event : Event) : List StoreOp :=
  (handler parseFn storeFail store event).2.2

/-! ## Branch characterizations of the handler -/

theorem handlerOps_def (p : String → Except String Js) (f : Option String)
    (s : Store) (e : Event) : handlerOps p f s e = (runSwitch p f s e).ops := rfl

theorem handlerStore_def (p : String → Except String Js) (f : Option String)
    (s : Store) (e : Event) : handlerStore p f s e = (runSwitch p f s e).store := rfl

theorem handlerResponse_def (p : String → Except String Js) (f : Option String)
    (s : Store) (e : Event) :
    handlerResponse p f s e =
      { statusCode := match (runSwitch p f s e).result with
          | .ok _ => 200
          | .error _ => 400,
        body := jsonStringify (match (runSwitch p f s e).result with
          | .ok b => b
          | .error msg => .str msg),
        headers := responseHeaders } := rfl

/-- On an error outcome of the `try` block, the `catch` and `finally` steps
produce status 400 and the JSON-serialized message as body. -/
theorem response_error (p : String → Except String Js) (f : Option String)
    (s : Store) (e : Event) (msg : String)
    (h : (runSwitch p f s e).result = .error msg) :
    handlerResponse p f s e = ⟨400, Js.str (jsonQuote msg), responseHeaders⟩ := by
  rw [handlerResponse_def, h]
  simp [jsonStringify, jsonValue]

/-- On a success outcome of the `try` block, the `finally` step serializes
the body and the status stays 200. -/
theorem response_ok (p : String → Except String Js) (f : Option String)
    (s : Store) (e : Event) (b : Js)
    (h : (runSwitch p f s e).result = .ok b) :
    handlerResponse p f s e = ⟨200, jsonStringify b, responseHeaders⟩ := by
  rw [handlerResponse_def, h]

theorem runSwitch_delete (p : String → Except String Js) (f : Option String)
    (s : Store) (e : Event) (h : routingKey e = "DELETE /posts/{id}") :
    runSwitch p f s e =
      match sendDelete f s e.pathParametersId with
      | .error er => ⟨.error er, s, [.delete e.pathParametersId]⟩
      | .ok store2 =>
        ⟨.ok (.str ("Deleted item " ++ e.pathParametersId)), store2,
          [.delete e.pathParametersId]⟩ := by
  unfold runSwitch
  simp only [h, if_pos]

theorem runSwitch_getid (p : String → Except String Js) (f : Option String)
    (s : Store) (e : Event) (h : routingKey e = "GET /posts/{id}") :
    runSwitch p f s e =
      match sendGet f s e.pathParametersId with
      | .error er => ⟨.error er, s, [.get e.pathParametersId]⟩
      | .ok item =>
        ⟨.ok (match item with | some r => r.toJs | none => .undefined), s,
          [.get e.pathParametersId]⟩ := by
  unfold runSwitch
  simp only [h]
  rfl

theorem runSwitch_scan (p : String → Except String Js) (f : Option String)
    (s : Store) (e : Event) (h : routingKey e = "GET /posts") :
    runSwitch p f s e =
      match sendScan f s with
      | .error er => ⟨.error er, s, [.scan]⟩
      | .ok items => ⟨.ok (.arr (items.map Record.toJs)), s, [.scan]⟩ := by
  unfold runSwitch
  simp only [h]
  rfl

theorem runSwitch_put (p : String → Except String Js) (f : Option String)
    (s : Store) (e : Event) (h : routingKey e = "PUT /posts") :
    runSwitch p f s e =
      (match p e.body with
        | .error er => (⟨.error er, s, []⟩ : TryOut)
        | .ok requestJSON =>
          match requestJSON.getField "id" with
          | .error er => ⟨.error er, s, []⟩
          | .ok idv =>
            match requestJSON.getField "postTitle" with
            | .error er => ⟨.error er, s, []⟩
            | .ok titlev =>
              match requestJSON.getField "postDescription" with
              | .error er => ⟨.error er, s, []⟩
              | .ok descv =>
                match sendPut f s ⟨idv, titlev, descv⟩ with
                | .error er => ⟨.error er, s, [.put ⟨idv, titlev, descv⟩]⟩
                | .ok store2 =>
                  ⟨.ok (.str ("Put post " ++ idv.toDisplay)), store2,
                    [.put ⟨idv, titlev, descv⟩]⟩) := by
  unfold runSwitch
  simp only [h]
  rfl

theorem runSwitch_default (p : String → Except String Js) (f : Option String)
    (s : Store) (e : Event)
    (h1 : routingKey e ≠ "DELETE /posts/{id}")
    (h2 : routingKey e ≠ "GET /posts/{id}")
    (h3 : routingKey e ≠ "GET /posts")
    (h4 : routingKey e ≠ "PUT /posts") :
    runSwitch p f s e =
      ⟨.error ("Unsupported route: " ++ dq ++ routingKey e ++ dq), s, []⟩ := by
  unfold runSwitch
  simp only [h1, h2, h3, h4, if_false, if_neg, not_false_iff]

/-! ## Auxiliary observations used in the claim statements -/

/-- Whether a JavaScript value is a string. -/
def Js.isString : Js → Bool
  | .str _ => true
  | _ => false

/-- Property lookup on a parsed body value that is neither `null` nor
`undefined`: the field's value on an object (or `undefined` when the field is
absent), `undefined` on every other value. -/
def jsFieldD (j : Js) (f : String) : Js :=
  match j with
  | .obj fields => (fields.lookup f).getD .undefined
  | _ => .undefined

theorem getField_ok (j : Js) (f : String) (h1 : j ≠ .null) (h2 : j ≠ .undefined) :
    j.getField f = .ok (jsFieldD j f) := by
  cases j <;> simp_all [Js.getField, jsFieldD]

theorem jsonStringify_eq_undefined_iff (v : Js) :
    jsonStringify v = Js.undefined ↔ v = Js.undefined := by
  cases v <;> simp [jsonStringify, jsonValue]

theorem jsonStringify_isString (v : Js) (h : v ≠ Js.undefined) :
    (jsonStringify v).isString = true := by
  cases v <;> simp_all [jsonStringify, jsonValue, Js.isString]

/-! ## Concrete request fixtures

Concrete events and `JSON.parse` behaviours used by witnesses and
counterexamples. Each `parse…` function models the value JavaScript's
`JSON.parse` produces on the corresponding body text. -/

/-- Models `JSON.parse` where the request body is the text `null` (or where
the body is never parsed): parsing succeeds with the value `null`. -/
def parseNullJson : String → Except String Js := fun _ => .ok Js.null

/-- A request with an undefined routing key: `PATCH` on the collection. -/
def evPatchPosts : Event := ⟨"PATCH", "/posts", "", ""⟩

/-- `GET` on the collection. -/
def evScanPosts : Event := ⟨"GET", "/posts", "", ""⟩

/-- `GET` on `collection/\x7bid\x7d` with path parameter id `42`. -/
def evGet42 : Event := ⟨"GET", "/posts/{id}", "42", ""⟩

/-- `DELETE` on `collection/\x7bid\x7d` with path parameter id `7`. -/
def evDel7 : Event := ⟨"DELETE", "/posts/{id}", "7", ""⟩

/-- The body text of C5 as written in the spec:
`\x7b"id":"1","title":"a","description":"b"\x7d`. -/
def bodyTitleDesc : String :=
  "\x7b" ++ dq ++ "id" ++ dq ++ ":" ++ dq ++ "1" ++ dq ++ "," ++
  dq ++ "title" ++ dq ++ ":" ++ dq ++ "a" ++ dq ++ "," ++
  dq ++ "description" ++ dq ++ ":" ++ dq ++ "b" ++ dq ++ "\x7d"

/-- Models `JSON.parse` on `bodyTitleDesc`: an object with fields `id`,
`title`, `description`. -/
def parseTitleDesc : String → Except String Js := fun _ =>
  .ok (Js.obj [("id", .str "1"), ("title", .str "a"), ("description", .str "b")])

/-- `PUT` on the collection carrying `bodyTitleDesc`. -/
def evPutTitleDesc : Event := ⟨"PUT", "/posts", "", bodyTitleDesc⟩

/-- A body text with the attribute names the handler actually reads:
`\x7b"id":"1","postTitle":"a","postDescription":"b"\x7d`. -/
def bodyPostFields : String :=
  "\x7b" ++ dq ++ "id" ++ dq ++ ":" ++ dq ++ "1" ++ dq ++ "," ++
  dq ++ "postTitle" ++ dq ++ ":" ++ dq ++ "a" ++ dq ++ "," ++
  dq ++ "postDescription" ++ dq ++ ":" ++ dq ++ "b" ++ dq ++ "\x7d"

/-- Models `JSON.parse` on `bodyPostFields`. -/
def parsePostFields : String → Except String Js := fun _ =>
  .ok (Js.obj [("id", .str "1"), ("postTitle", .str "a"), ("postDescription", .str "b")])

/-- `PUT` on the collection carrying `bodyPostFields`. -/
def evPutPost : Event := ⟨"PUT", "/posts", "", bodyPostFields⟩

/-- `PUT` on the collection whose body is the text `null`. -/
def evPutNull : Event := ⟨"PUT", "/posts", "", "null"⟩

/-- A pre-existing store row used to observe that an invocation left the
store unchanged. -/
def recA : Record := ⟨.str "0", .str "t", .str "d"⟩

/-! ## The claims -/

/-- C8: for every invocation, regardless of route, parse behaviour, store
state or store failure, the returned headers are the one fixed static map,
which declares the JSON content type and cross-origin-allow directives for
the single configured origin. -/
theorem claim_C8_fixed_headers (p : String → Except String Js)
    (f : Option String) (s : Store) (e : Event) :
    (handlerResponse p f s e).headers = responseHeaders
    ∧ responseHeaders.lookup "Content-Type" = some (Js.str "application/json")
    ∧ responseHeaders.lookup "Access-Control-Allow-Origin"
        = some (Js.str "http://localhost:3000")
    ∧ responseHeaders.lookup "Access-Control-Allow-Credentials"
        = some (Js.bool true) :=
  ⟨rfl, rfl, rfl, rfl⟩

/-- C9: for every invocation and every store behaviour (including store
failures), the returned status code is either 200 or 400. -/
theorem claim_C9_status_codes (p : String → Except String Js)
    (f : Option String) (s : Store) (e : Event) :
    (handlerResponse p f s e).statusCode = 200
    ∨ (handlerResponse p f s e).statusCode = 400 := by
  rw [handlerResponse_def]
  cases (runSwitch p f s e).result
  · right; rfl
  · left; rfl

/-- C2: whenever the `try` block fails — unsupported routing key, body that
fails to parse on upsert, a failing store call, or any other thrown error —
the dispatcher catches it at the top level and returns `statusCode = 400`
with the failure's message text as the body (JSON-serialized by the
unconditional `finally` step); no error kind gets a different status code. -/
theorem claim_C2_uniform_errors (p : String → Except String Js)
    (f : Option String) (s : Store) (e : Event) (msg : String)
    (h : (runSwitch p f s e).result = .error msg) :
    (handlerResponse p f s e).statusCode = 400
    ∧ (handlerResponse p f s e).body = Js.str (jsonQuote msg) := by
  rw [response_error p f s e msg h]
  exact ⟨rfl, rfl⟩

/-- Witness for C2: the unsupported route `PATCH /posts` fails, and the
response is status 400 with the serialized message as body. -/
theorem claim_C2_witness :
    (runSwitch parseNullJson none [] evPatchPosts).result
        = .error ("Unsupported route: " ++ dq ++ "PATCH /posts" ++ dq)
    ∧ (handlerResponse parseNullJson none [] evPatchPosts).statusCode = 400
    ∧ (handlerResponse parseNullJson none [] evPatchPosts).body
        = Js.str (jsonQuote ("Unsupported route: " ++ dq ++ "PATCH /posts" ++ dq)) :=
  ⟨rfl, (claim_C2_uniform_errors parseNullJson none [] evPatchPosts _ rfl).1,
    (claim_C2_uniform_errors parseNullJson none [] evPatchPosts _ rfl).2⟩

/-- C3: a routing key matching none of the four dispatch-table entries fails
with the `Unsupported route` error carrying the offending key (in double
quotes) in its message, and the response is status 400 with that message,
JSON-serialized, as body. -/
theorem claim_C3_unsupported_route (p : String → Except String Js)
    (f : Option String) (s : Store) (e : Event)
    (h1 : routingKey e ≠ "DELETE /posts/{id}")
    (h2 : routingKey e ≠ "GET /posts/{id}")
    (h3 : routingKey e ≠ "GET /posts")
    (h4 : routingKey e ≠ "PUT /posts") :
    (runSwitch p f s e).result
        = .error ("Unsupported route: " ++ dq ++ routingKey e ++ dq)
    ∧ (handlerResponse p f s e).statusCode = 400
    ∧ (handlerResponse p f s e).body
        = Js.str (jsonQuote ("Unsupported route: " ++ dq ++ routingKey e ++ dq)) := by
  have hr : (runSwitch p f s e).result
      = .error ("Unsupported route: " ++ dq ++ routingKey e ++ dq) := by
    rw [runSwitch_default p f s e h1 h2 h3 h4]
  have hresp := response_error p f s e _ hr
  rw [hresp]
  exact ⟨hr, rfl, rfl⟩

/-- Witness for C3: `PATCH /posts` matches no entry and yields status 400
with body `Unsupported route: "PATCH /posts"`, serialized. -/
theorem claim_C3_witness :
    routingKey evPatchPosts = "PATCH /posts"
    ∧ (handlerResponse parseNullJson none [] evPatchPosts).statusCode = 400
    ∧ (handlerResponse parseNullJson none [] evPatchPosts).body
        = Js.str (jsonQuote ("Unsupported route: " ++ dq ++ "PATCH /posts" ++ dq)) := by
  have h := claim_C3_unsupported_route parseNullJson none [] evPatchPosts
    (by decide) (by decide) (by decide) (by decide)
  exact ⟨rfl, h.2.1, h.2.2⟩

/-- C6: for every store state and every id not present in the store, `GET`
on `collection/\x7bid\x7d` (with the store call succeeding) returns a
success response: status 200 with a body that is the absent/undefined item
(serializing the undefined item leaves it undefined), not an error
response. -/
theorem claim_C6_get_absent (p : String → Except String Js) (s : Store)
    (e : Event) (hkey : routingKey e = "GET /posts/{id}")
    (habs : getByKey s e.pathParametersId = none) :
    handlerResponse p none s e = ⟨200, Js.undefined, responseHeaders⟩ := by
  have hr : (runSwitch p none s e).result = .ok Js.undefined := by
    rw [runSwitch_getid p none s e hkey]
    simp [sendGet, habs]
  rw [response_ok p none s e _ hr]
  rfl

/-- Witness for C6: `GET /posts/\x7bid\x7d` with id `42` on the empty store
returns status 200 and an undefined body. -/
theorem claim_C6_witness :
    routingKey evGet42 = "GET /posts/{id}"
    ∧ getByKey [] evGet42.pathParametersId = none
    ∧ handlerResponse parseNullJson none [] evGet42 = ⟨200, Js.undefined, responseHeaders⟩ :=
  ⟨rfl, rfl, claim_C6_get_absent parseNullJson [] evGet42 rfl rfl⟩

/-- C7: for every store state and every id — present or not — `DELETE` on
`collection/\x7bid\x7d` (with the store call succeeding) raises no error and
returns status 200 with a confirmation body naming the id; the store
afterwards is the table without that id, and deleting the same id a second
time leaves both the store and the response unchanged (delete is
idempotent). -/
theorem claim_C7_delete_idempotent (p : String → Except String Js) (s : Store)
    (e : Event) (hkey : routingKey e = "DELETE /posts/{id}") :
    (runSwitch p none s e).result
        = .ok (.str ("Deleted item " ++ e.pathParametersId))
    ∧ (handlerResponse p none s e).statusCode = 200
    ∧ (handlerResponse p none s e).body
        = Js.str (jsonQuote ("Deleted item " ++ e.pathParametersId))
    ∧ handlerStore p none s e = deleteByKey s e.pathParametersId
    ∧ handlerStore p none (handlerStore p none s e) e = handlerStore p none s e
    ∧ handlerResponse p none (handlerStore p none s e) e = handlerResponse p none s e := by
  have hswitch := runSwitch_delete p none s e hkey
  have hr : (runSwitch p none s e).result
      = .ok (.str ("Deleted item " ++ e.pathParametersId)) := by
    rw [hswitch]; rfl
  have hst : handlerStore p none s e = deleteByKey s e.pathParametersId := by
    rw [handlerStore_def, hswitch]; rfl
  have hresp := response_ok p none s e _ hr
  have hswitch2 := runSwitch_delete p none (handlerStore p none s e) e hkey
  have hr2 : (runSwitch p none (handlerStore p none s e) e).result
      = .ok (.str ("Deleted item " ++ e.pathParametersId)) := by
    rw [hswitch2]; rfl
  have hresp2 := response_ok p none (handlerStore p none s e) e _ hr2
  have hst2 : handlerStore p none (handlerStore p none s e) e
      = handlerStore p none s e := by
    rw [handlerStore_def, hswitch2]
    show deleteByKey (handlerStore p none s e) e.pathParametersId = _
    rw [hst]
    simp [deleteByKey, List.filter_filter]
  refine ⟨hr, ?_, ?_, hst, hst2, ?_⟩
  · rw [hresp]
  · rw [hresp]
    simp [jsonStringify, jsonValue]
  · rw [hresp, hresp2]

/-- Witness for C7: deleting id `7` from a store not containing it returns
status 200, leaves the store as it was, and a second delete changes
nothing. -/
theorem claim_C7_witness :
    routingKey evDel7 = "DELETE /posts/{id}"
    ∧ (handlerResponse parseNullJson none [recA] evDel7).statusCode = 200
    ∧ handlerStore parseNullJson none [recA] evDel7 = [recA]
    ∧ handlerStore parseNullJson none (handlerStore parseNullJson none [recA] evDel7) evDel7
        = handlerStore parseNullJson none [recA] evDel7 := by
  have h := claim_C7_delete_idempotent parseNullJson [recA] evDel7 rfl
  exact ⟨rfl, h.2.1, by rw [h.2.2.2.1]; rfl, h.2.2.2.2.1⟩

/-- C1: every invocation performs at most one store operation; for each of
the four defined routing keys the invocation sends exactly the corresponding
operation (for `PUT` the single operation is the put of the extracted
record, sent only once parsing and field extraction succeed), and an
undefined routing key sends no store operation at all. -/
theorem claim_C1_exact_dispatch (p : String → Except String Js)
    (f : Option String) (s : Store) (e : Event) :
    (handlerOps p f s e).length ≤ 1
    ∧ (routingKey e = "GET /posts" → handlerOps p f s e = [StoreOp.scan])
    ∧ (routingKey e = "GET /posts/{id}" →
        handlerOps p f s e = [StoreOp.get e.pathParametersId])
    ∧ (routingKey e = "DELETE /posts/{id}" →
        handlerOps p f s e = [StoreOp.delete e.pathParametersId])
    ∧ (routingKey e = "PUT /posts" →
        ∀ op ∈ handlerOps p f s e, ∃ r, op = StoreOp.put r)
    ∧ (routingKey e ≠ "DELETE /posts/{id}" → routingKey e ≠ "GET /posts/{id}" →
        routingKey e ≠ "GET /posts" → routingKey e ≠ "PUT /posts" →
        handlerOps p f s e = []) := by
  by_cases h1 : routingKey e = "DELETE /posts/{id}"
  · have hops : handlerOps p f s e = [StoreOp.delete e.pathParametersId] := by
      rw [handlerOps_def, runSwitch_delete p f s e h1]
      rcases sendDelete f s e.pathParametersId with er | st2 <;> rfl
    refine ⟨by rw [hops]; exact Nat.le_refl 1, ?_, ?_, fun _ => hops, ?_, ?_⟩
    · intro hk; exact absurd (h1.symm.trans hk) (by decide)
    · intro hk; exact absurd (h1.symm.trans hk) (by decide)
    · intro hk; exact absurd (h1.symm.trans hk) (by decide)
    · intro hne _ _ _; exact absurd h1 hne
  · by_cases h2 : routingKey e = "GET /posts/{id}"
    · have hops : handlerOps p f s e = [StoreOp.get e.pathParametersId] := by
        rw [handlerOps_def, runSwitch_getid p f s e h2]
        rcases sendGet f s e.pathParametersId with er | item <;> rfl
      refine ⟨by rw [hops]; exact Nat.le_refl 1, ?_, fun _ => hops, ?_, ?_, ?_⟩
      · intro hk; exact absurd (h2.symm.trans hk) (by decide)
      · intro hk; exact absurd (h2.symm.trans hk) (by decide)
      · intro hk; exact absurd (h2.symm.trans hk) (by decide)
      · intro _ hne _ _; exact absurd h2 hne
    · by_cases h3 : routingKey e = "GET /posts"
      · have hops : handlerOps p f s e = [StoreOp.scan] := by
          rw [handlerOps_def, runSwitch_scan p f s e h3]
          rcases sendScan f s with er | items <;> rfl
        refine ⟨by rw [hops]; exact Nat.le_refl 1, fun _ => hops, ?_, ?_, ?_, ?_⟩
        · intro hk; exact absurd (h3.symm.trans hk) (by decide)
        · intro hk; exact absurd (h3.symm.trans hk) (by decide)
        · intro hk; exact absurd (h3.symm.trans hk) (by decide)
        · intro _ _ hne _; exact absurd h3 hne
      · by_cases h4 : routingKey e = "PUT /posts"
        · have hsw := runSwitch_put p f s e h4
          have hops : handlerOps p f s e = []
              ∨ ∃ r, handlerOps p f s e = [StoreOp.put r] := by
            rcases hpb : p e.body with er | j
            · exact Or.inl (by rw [handlerOps_def, hsw]; simp [hpb])
            · rcases hid : j.getField "id" with er | idv
              · exact Or.inl (by rw [handlerOps_def, hsw]; simp [hpb, hid])
              · rcases htl : j.getField "postTitle" with er | titlev
                · exact Or.inl (by rw [handlerOps_def, hsw]; simp [hpb, hid, htl])
                · rcases hds : j.getField "postDescription" with er | descv
                  · exact Or.inl (by
                      rw [handlerOps_def, hsw]; simp [hpb, hid, htl, hds])
                  · rcases hsp : sendPut f s ⟨idv, titlev, descv⟩ with er | st2
                    · exact Or.inr ⟨⟨idv, titlev, descv⟩, by
                        rw [handlerOps_def, hsw]; simp [hpb, hid, htl, hds, hsp]⟩
                    · exact Or.inr ⟨⟨idv, titlev, descv⟩, by
                        rw [handlerOps_def, hsw]; simp [hpb, hid, htl, hds, hsp]⟩
          have hlen : (handlerOps p f s e).length ≤ 1 := by
            rcases hops with h | ⟨r, h⟩ <;> rw [h] <;> simp
          refine ⟨hlen, ?_, ?_, ?_, ?_, ?_⟩
          · intro hk; exact absurd (h4.symm.trans hk) (by decide)
          · intro hk; exact absurd (h4.symm.trans hk) (by decide)
          · intro hk; exact absurd (h4.symm.trans hk) (by decide)
          · intro _ op hop
            rcases hops with h | ⟨r, h⟩
            · rw [h] at hop; cases hop
            · rw [h] at hop
              simp only [List.mem_singleton] at hop
              exact ⟨r, hop⟩
          · intro _ _ _ hne; exact absurd h4 hne
        · have hops : handlerOps p f s e = [] := by
            rw [handlerOps_def, runSwitch_default p f s e h1 h2 h3 h4]
          refine ⟨by rw [hops]; simp, ?_, ?_, ?_, ?_, fun _ _ _ _ => hops⟩
          · intro hk; exact absurd hk h3
          · intro hk; exact absurd hk h2
          · intro hk; exact absurd hk h1
          · intro hk; exact absurd hk h4

/-- Witness for C1: on concrete requests, `GET /posts` sends exactly a scan,
`GET /posts/\x7bid\x7d` exactly a get, `DELETE /posts/\x7bid\x7d` exactly a
delete, every operation of a `PUT /posts` invocation is a put, and
`PATCH /posts` sends nothing. -/
theorem claim_C1_witness :
    handlerOps parseNullJson none [] evScanPosts = [StoreOp.scan]
    ∧ handlerOps parseNullJson none [] evGet42 = [StoreOp.get "42"]
    ∧ handlerOps parseNullJson none [] evDel7 = [StoreOp.delete "7"]
    ∧ (∀ op ∈ handlerOps parsePostFields none [] evPutPost, ∃ r, op = StoreOp.put r)
    ∧ handlerOps parseNullJson none [] evPatchPosts = [] :=
  ⟨(claim_C1_exact_dispatch parseNullJson none [] evScanPosts).2.1 rfl,
   (claim_C1_exact_dispatch parseNullJson none [] evGet42).2.2.1 rfl,
   (claim_C1_exact_dispatch parseNullJson none [] evDel7).2.2.2.1 rfl,
   (claim_C1_exact_dispatch parsePostFields none [] evPutPost).2.2.2.2.1 rfl,
   (claim_C1_exact_dispatch parseNullJson none [] evPatchPosts).2.2.2.2.2
     (by decide) (by decide) (by decide) (by decide)⟩

/-- C4 counterexample: `GET /posts/\x7bid\x7d` for id `42` on the empty
store succeeds with status 200, but the returned body is the value
`undefined` — not a string — because `JSON.stringify` of `undefined` is
`undefined`. This refutes "the returned body is always a string". -/
theorem claim_C4_counterexample :
    (handlerResponse parseNullJson none [] evGet42).statusCode = 200
    ∧ (handlerResponse parseNullJson none [] evGet42).body = Js.undefined
    ∧ (handlerResponse parseNullJson none [] evGet42).body.isString = false :=
  ⟨rfl, rfl, rfl⟩

/-- C4 (amended): on both the success and the failure path the body is
passed through `JSON.stringify` as the unconditional last action before
returning; the returned body is a string in every case except when the value
being serialized is `undefined` — exactly the successful `GET` on
`collection/\x7bid\x7d` for an absent id — where the body stays
`undefined`. -/
theorem claim_C4_final_serialization (p : String → Except String Js)
    (f : Option String) (s : Store) (e : Event) :
    (handlerResponse p f s e).body
        = jsonStringify (match (runSwitch p f s e).result with
            | .ok b => b
            | .error msg => .str msg)
    ∧ ((handlerResponse p f s e).body.isString = true
        ∨ (handlerResponse p f s e).body = Js.undefined)
    ∧ ((handlerResponse p f s e).body = Js.undefined
        ↔ (runSwitch p f s e).result = .ok Js.undefined) := by
  have hbody : (handlerResponse p f s e).body
      = jsonStringify (match (runSwitch p f s e).result with
          | .ok b => b
          | .error msg => .str msg) := by
    rw [handlerResponse_def]
  refine ⟨hbody, ?_, ?_⟩
  · rw [hbody]
    cases hres : (runSwitch p f s e).result with
    | error msg =>
      left
      exact jsonStringify_isString _ (fun h => Js.noConfusion h)
    | ok b =>
      by_cases hb : b = Js.undefined
      · right
        rw [hb]
        rfl
      · left
        exact jsonStringify_isString _ hb
  · rw [hbody]
    cases hres : (runSwitch p f s e).result with
    | error msg =>
      constructor
      · intro h
        exact absurd ((jsonStringify_eq_undefined_iff _).mp h)
          (fun h' => Js.noConfusion h')
      · intro h
        exact absurd h (fun h' => Except.noConfusion h')
    | ok b =>
      constructor
      · intro h
        have h' : jsonStringify b = Js.undefined := h
        rw [(jsonStringify_eq_undefined_iff b).mp h']
      · intro h
        cases h
        rfl

/-- C5 counterexample: `PUT /posts` with the body
`\x7b"id":"1","title":"a","description":"b"\x7d` (parsed as JavaScript
parses it) sends to the store the single record whose `postTitle` and
`postDescription` are `undefined`: the stored record does not hold the
values `a` and `b`, because the handler reads the fields `postTitle` and
`postDescription`, which that body does not have. -/
theorem claim_C5_counterexample :
    handlerOps parseTitleDesc none [] evPutTitleDesc
        = [StoreOp.put ⟨Js.str "1", Js.undefined, Js.undefined⟩]
    ∧ handlerStore parseTitleDesc none [] evPutTitleDesc
        = [⟨Js.str "1", Js.undefined, Js.undefined⟩]
    ∧ Js.undefined ≠ Js.str "a"
    ∧ Js.undefined ≠ Js.str "b" :=
  ⟨rfl, rfl, fun h => Js.noConfusion h, fun h => Js.noConfusion h⟩

/-- C5 (amended): `PUT /posts` with body
`\x7b"id":"1","postTitle":"a","postDescription":"b"\x7d` — the attribute
names the handler actually reads — stores the record with exactly those
three fields and values, returns status 200, and the response body contains
the literal id `1`. -/
theorem claim_C5_put_stores_record :
    handlerOps parsePostFields none [] evPutPost
        = [StoreOp.put ⟨Js.str "1", Js.str "a", Js.str "b"⟩]
    ∧ handlerStore parsePostFields none [] evPutPost
        = [⟨Js.str "1", Js.str "a", Js.str "b"⟩]
    ∧ (handlerResponse parsePostFields none [] evPutPost).statusCode = 200
    ∧ (handlerResponse parsePostFields none [] evPutPost).body
        = Js.str (dq ++ "Put post 1" ++ dq)
    ∧ (∃ pre suf, dq ++ "Put post 1" ++ dq = pre ++ "1" ++ suf) := by
  have hq : jsonQuote "Put post 1" = dq ++ "Put post 1" ++ dq := by decide
  refine ⟨rfl, rfl, rfl, by rw [← hq]; rfl, ⟨dq ++ "Put post ", dq, by decide⟩⟩

/-- Filtering by a predicate that keeps every hit of a search leaves the
search result unchanged. -/
theorem find?_filter_of_imp {α : Type} (l : List α) (pr q : α → Bool)
    (h : ∀ x, pr x = true → q x = true) :
    (l.filter q).find? pr = l.find? pr := by
  induction l with
  | nil => rfl
  | cons a t ih =>
    by_cases hq : q a = true
    · rw [List.filter_cons_of_pos hq]
      cases hp : pr a
      · rw [List.find?_cons_of_neg _ (by simp [hp]), List.find?_cons_of_neg _ (by simp [hp])]
        exact ih
      · rw [List.find?_cons_of_pos _ hp, List.find?_cons_of_pos _ hp]
    · rw [List.filter_cons_of_neg (by simpa using hq)]
      have hp : pr a = false := by
        cases hpa : pr a
        · rfl
        · exact absurd (h a hpa) hq
      rw [List.find?_cons_of_neg _ (by simp [hp])]
      exact ih

/-- Observational full-replacement semantics of `PutCommand`: after a put,
the lookup of the written key yields the new record, and the lookup of every
other key is unchanged. -/
theorem getByKey_putRecord (s : Store) (r : Record) (k : String) :
    getByKey (putRecord s r) k
      = if r.id.keyEq (Js.str k) then some r else getByKey s k := by
  unfold getByKey putRecord
  by_cases hk : r.id.keyEq (Js.str k) = true
  · rw [if_pos hk]
    simp only [List.find?, hk]
  · have hkf : r.id.keyEq (Js.str k) = false := by simpa using hk
    rw [if_neg hk]
    simp only [List.find?, hkf]
    apply find?_filter_of_imp
    intro x hx
    simp only [Bool.not_eq_true']
    cases hxr : x.id.keyEq r.id
    · rfl
    · exfalso
      cases hxid : x.id <;> rw [hxid] at hx hxr <;> simp [Js.keyEq] at hx hxr
      cases hrid : r.id <;> rw [hrid] at hxr hk <;> simp [Js.keyEq] at hxr hk
      exact hk (hxr ▸ hx)

/-- C10 counterexample: the body text `null` parses successfully
(`JSON.parse` returns `null` without throwing), yet the invocation stores
nothing — the field accesses on `null` throw, no put is sent, the store is
unchanged and the response is status 400. This refutes "for every `PUT`
whose body parses successfully, the stored record contains the three
extracted fields". -/
theorem claim_C10_counterexample :
    parseNullJson "null" = .ok Js.null
    ∧ handlerOps parseNullJson none [recA] evPutNull = []
    ∧ handlerStore parseNullJson none [recA] evPutNull = [recA]
    ∧ (handlerResponse parseNullJson none [recA] evPutNull).statusCode = 400 :=
  ⟨rfl, rfl, rfl, rfl⟩

/-- C10 (amended): for every `PUT` on the collection whose body parses
successfully to a value other than `null` (`JSON.parse` can never produce
`undefined`), the single record sent to the store consists of exactly the
three fields `id`, `postTitle`, `postDescription` obtained by property
lookup on the parsed value — any additional fields of the body are
discarded — and the write is a full replacement: afterwards the lookup of
the written key yields exactly the new record and every other key is
unchanged. -/
theorem claim_C10_put_replacement (p : String → Except String Js) (s : Store)
    (e : Event) (j : Js) (hkey : routingKey e = "PUT /posts")
    (hparse : p e.body = .ok j) (hnull : j ≠ .null) (hundef : j ≠ .undefined) :
    handlerOps p none s e
        = [StoreOp.put ⟨jsFieldD j "id", jsFieldD j "postTitle",
            jsFieldD j "postDescription"⟩]
    ∧ handlerStore p none s e
        = putRecord s ⟨jsFieldD j "id", jsFieldD j "postTitle",
            jsFieldD j "postDescription"⟩
    ∧ (∀ k : String,
        getByKey (handlerStore p none s e) k
          = if (jsFieldD j "id").keyEq (Js.str k)
            then some ⟨jsFieldD j "id", jsFieldD j "postTitle",
              jsFieldD j "postDescription"⟩
            else getByKey s k) := by
  have hsw := runSwitch_put p none s e hkey
  have hid := getField_ok j "id" hnull hundef
  have htl := getField_ok j "postTitle" hnull hundef
  have hds := getField_ok j "postDescription" hnull hundef
  have hops : handlerOps p none s e
      = [StoreOp.put ⟨jsFieldD j "id", jsFieldD j "postTitle",
          jsFieldD j "postDescription"⟩] := by
    rw [handlerOps_def, hsw]
    simp [hparse, hid, htl, hds, sendPut]
  have hst : handlerStore p none s e
      = putRecord s ⟨jsFieldD j "id", jsFieldD j "postTitle",
          jsFieldD j "postDescription"⟩ := by
    rw [handlerStore_def, hsw]
    simp [hparse, hid, htl, hds, sendPut]
  refine ⟨hops, hst, ?_⟩
  intro k
  rw [hst]
  exact getByKey_putRecord s _ k

/-- Witness for the amended C10: the body
`\x7b"id":"1","postTitle":"a","postDescription":"b"\x7d` parses to a
non-null object, and the invocation sends exactly the put of the record
with the three extracted fields. -/
theorem claim_C10_witness :
    routingKey evPutPost = "PUT /posts"
    ∧ parsePostFields evPutPost.body
        = .ok (Js.obj [("id", .str "1"), ("postTitle", .str "a"),
            ("postDescription", .str "b")])
    ∧ handlerOps parsePostFields none [] evPutPost
        = [StoreOp.put ⟨Js.str "1", Js.str "a", Js.str "b"⟩] :=
  ⟨rfl, rfl,
    (claim_C10_put_replacement parsePostFields [] evPutPost
      (Js.obj [("id", .str "1"), ("postTitle", .str "a"),
        ("postDescription", .str "b")])
      rfl rfl (fun h => Js.noConfusion h) (fun h => Js.noConfusion h)).1⟩
